import Mathlib

/-!
# K6-Minecraft-VUser: the bot of `bot.go`

A shallow embedding of `src/bot.go` (package `minecraft`) and the properties
proved about it.

* The `MinecraftBot` struct is a Lean structure with the same fields.  Each Go
  method is a Lean function from the bot (and the arguments) to the returned
  value and the bot afterwards.
* The go-mc library (`bot.Client`, `basic.Player`, `msg.Manager`,
  `chat.Message`) is outside the repository.  What its calls return is taken
  from a `Library` record, one field per call the source makes.
* A `chan struct{}` of capacity 1 has three states: nil, empty, one token.
* `select` with a `time.After` case is modelled with the two things the Go
  runtime contributes: how long after arming the timer the select polls its
  cases, and which case it picks when both can proceed.
* Goroutines started with `go` and the clock are kept in `Sys`.
* The mutex is modelled apart, in the access scripts of the last section of
  definitions: per method, the lock, unlock, read and write actions in
  program order.
-/

namespace Minecraft

/-! ## Data model -/

/-- A non-nil Go `error` value, by its message. -/
abbrev Err := String

/-- A Go `error`: `none` is `nil`. -/
abbrev error := Option Err

/-- A Go `float32`, by its IEEE-754 bit pattern.  The bot only stores and
returns health values, no arithmetic is done on them. -/
structure float32 where
  bits : Nat
  deriving DecidableEq, Repr

/-- The zero value of `float32`, `+0`. -/
def float32.zero : float32 := ⟨0⟩

/-- `bot.Auth` as `Connect` fills it (lines 47-51). -/
structure Auth where
  Name : String
  UUID : String
  AsTk : String
  deriving DecidableEq, Repr

/-- The `*bot.Client` made by `bot.NewClient()` with its `Auth` assigned. -/
structure Client where
  Auth : Auth
  deriving DecidableEq, Repr

/-- The `*basic.Player` made by `basic.NewPlayer(b.client, ...)`. -/
structure Player where
  client : Client
  deriving DecidableEq, Repr

/-- The `*msg.Manager` made by `msg.New(b.client, b.player, ...)`. -/
structure Manager where
  client : Client
  player : Player
  deriving DecidableEq, Repr

/-- A `chat.Message` of the library, kept as its raw form.  What `String()`
renders it to is the library's business (`Library.String`). -/
structure Message where
  raw : String
  deriving DecidableEq, Repr

/-- State of a `chan struct{}` of capacity 1: the nil channel of a zero-valued
bot, a made channel with an empty buffer, a made channel holding its one
token. -/
inductive Chan where
  | nil
  | empty
  | full
  deriving DecidableEq, Repr

/-- The channel `make(chan struct{}, 1)` returns. -/
def Chan.make : Chan := Chan.empty

/-- The non-blocking send `select { case c <- struct{}{}: default: }`: the
send proceeds when the buffer has room; on a full buffer, and on the nil
channel, the `default` case runs and nothing is sent. -/
def Chan.trySend : Chan → Chan
  | Chan.nil => Chan.nil
  | Chan.empty => Chan.full
  | Chan.full => Chan.full

/-- Whether the receive `<-c` can proceed at once: only with a token in the
buffer (a receive from the nil channel never proceeds). -/
def Chan.canRecv : Chan → Bool
  | Chan.full => true
  | _ => false

/-- The channel after a receive that proceeded. -/
def Chan.recv : Chan → Chan
  | Chan.full => Chan.empty
  | c => c

/-- The struct `MinecraftBot` (lines 29-39), without `mu`. -/
structure MinecraftBot where
  client : Option Client
  player : Option Player
  chatHandler : Option Manager
  lastMessage : String
  lastHealth : float32
  isConnected : Bool
  healthUpdated : Chan
  messageReceived : Chan
  deriving DecidableEq, Repr

/-- `NewBot` (lines 24-26): `&MinecraftBot{}`, every field at its zero
value. -/
def NewBot : MinecraftBot :=
  { client := none, player := none, chatHandler := none,
    lastMessage := "", lastHealth := float32.zero, isConnected := false,
    healthUpdated := Chan.nil, messageReceived := Chan.nil }

/-- What the calls into the go-mc library return: `JoinServer` on the client
for an address, `SendMessage` on the chat handler (a possibly nil pointer) for
a text, `String()` on a chat message. -/
structure Library where
  JoinServer : Client → String → error
  SendMessage : Option Manager → String → error
  String : Message → String

/-! ## Durations and `select` -/

/-- Two's complement wrap-around of an integer to `int64`. -/
def toInt64 (x : Int) : Int := (x + 2 ^ 63) % 2 ^ 64 - 2 ^ 63

/-- The constant `time.Millisecond`, in nanoseconds. -/
def Millisecond : Int := 1000000

/-- The constant `time.Second`, in nanoseconds. -/
def Second : Int := 1000 * Millisecond

/-- The expression `time.Duration(timeout) * time.Millisecond` of lines 99
and 109: an `int64` product, which wraps around. -/
def timeoutDuration (timeout : Int) : Int :=
  toInt64 (toInt64 timeout * Millisecond)

/-- What the Go runtime contributes to one `select` of a wait: `elapsed`, the
nanoseconds between `time.After` arming the timer and the select polling its
cases, and `pickTimer`, whether the pseudo-random choice among the cases that
can proceed takes the timer case when both can. -/
structure Sched where
  elapsed : Nat
  pickTimer : Bool
  deriving DecidableEq, Repr

/-- Whether the timer channel of `time.After(d)` can proceed when the select
polls: the duration has run out by then (at once for `d ≤ 0`). -/
def timerFired (timeout : Int) (s : Sched) : Bool :=
  decide (timeoutDuration timeout ≤ (s.elapsed : Int))

/-- The `select` of lines 96-101 and 106-111 on channel `c`.  When the receive
can proceed and the timer case is not taken, the token is consumed and the
result is `true`.  Otherwise the timer case runs, at the poll when the timer
has fired and was picked or is the only case that can proceed, or after
blocking until it fires: no other goroutine sends in between. -/
def selectRecv (c : Chan) (timeout : Int) (s : Sched) : Bool × Chan :=
  if c.canRecv && !(timerFired timeout s && s.pickTimer) then (true, c.recv)
  else (false, c)

/-! ## The facade methods -/

/-- What `Connect` leaves: the returned error, the bot, and whether the
statement `go b.handleGamePackets()` of line 71 ran. -/
structure ConnectResult where
  err : error
  bot : MinecraftBot
  loopStarted : Bool
  deriving DecidableEq, Repr

/-- `Connect` (lines 42-73).  The two channels, the client and the handler
objects are made and stored first; then `JoinServer` is called; on an error
the function returns it, otherwise it sets `isConnected` and starts the packet
loop. -/
def Connect (lib : Library) (b : MinecraftBot) (address name uuid token : String) :
    ConnectResult :=
  let b1 := { b with healthUpdated := Chan.make }
  let b2 := { b1 with messageReceived := Chan.make }
  let c : Client := { Auth := { Name := name, UUID := uuid, AsTk := token } }
  let b3 := { b2 with client := some c }
  let p : Player := { client := c }
  let b4 := { b3 with player := some p }
  let b5 := { b4 with chatHandler := some { client := c, player := p } }
  match lib.JoinServer c address with
  | some err => { err := some err, bot := b5, loopStarted := false }
  | none => { err := none, bot := { b5 with isConnected := true }, loopStarted := true }

/-- `SendMessage` (lines 76-78): the result of the chat handler's
`SendMessage`, whatever the bot's state. -/
def SendMessage (lib : Library) (b : MinecraftBot) (text : String) : error × MinecraftBot :=
  (lib.SendMessage b.chatHandler text, b)

/-- `GetLastMessage` (lines 81-85). -/
def GetLastMessage (b : MinecraftBot) : String := b.lastMessage

/-- `GetHealth` (lines 88-92). -/
def GetHealth (b : MinecraftBot) : float32 := b.lastHealth

/-- `WaitForHealth` (lines 95-102). -/
def WaitForHealth (b : MinecraftBot) (timeout : Int) (s : Sched) : Bool × MinecraftBot :=
  let r := selectRecv b.healthUpdated timeout s
  (r.1, { b with healthUpdated := r.2 })

/-- `WaitForMessage` (lines 105-112). -/
def WaitForMessage (b : MinecraftBot) (timeout : Int) (s : Sched) : Bool × MinecraftBot :=
  let r := selectRecv b.messageReceived timeout s
  (r.1, { b with messageReceived := r.2 })

/-! ## The event handlers -/

/-- A goroutine started by `onDeath`: it sleeps for `sleep` nanoseconds and
then calls `b.player.Respawn()`.  Nothing holds a handle on it. -/
structure Goroutine where
  sleep : Int
  deriving DecidableEq, Repr

/-- What a handler leaves: the returned error, the bot, and the goroutines it
started. -/
structure HandlerResult where
  err : error
  bot : MinecraftBot
  spawned : List Goroutine
  deriving DecidableEq, Repr

/-- The greeting of line 130. -/
def greeting : String := "Привет от k6 бота!"

/-- `onGameStart` (lines 128-131). -/
def onGameStart (lib : Library) (b : MinecraftBot) : HandlerResult :=
  let r := SendMessage lib b greeting
  { err := r.1, bot := r.2, spawned := [] }

/-- `onPlayerMessage` (lines 133-142). -/
def onPlayerMessage (lib : Library) (b : MinecraftBot) (msg : Message) (_validated : Bool) :
    HandlerResult :=
  let b1 := { b with lastMessage := lib.String msg }
  let b2 := { b1 with messageReceived := b1.messageReceived.trySend }
  { err := none, bot := b2, spawned := [] }

/-- `onHealthChange` (lines 144-153); the `int32` and the second `float32`
are ignored. -/
def onHealthChange (b : MinecraftBot) (health : float32) (_food : Int) (_saturation : float32) :
    HandlerResult :=
  let b1 := { b with lastHealth := health }
  let b2 := { b1 with healthUpdated := b1.healthUpdated.trySend }
  { err := none, bot := b2, spawned := [] }

/-- `onDeath` (lines 155-162): one goroutine is started, which sleeps
`5 * time.Second` and then requests the respawn. -/
def onDeath (b : MinecraftBot) : HandlerResult :=
  { err := none, bot := b, spawned := [{ sleep := 5 * Second }] }

/-- `onDisconnect` (lines 164-170). -/
def onDisconnect (b : MinecraftBot) (_reason : Message) : HandlerResult :=
  { err := none, bot := { b with isConnected := false }, spawned := [] }

/-! ## The packet loop -/

/-- An event of the library, with the arguments its listener of lines 54-63
receives. -/
inductive Event where
  | gameStart
  | disconnect (reason : Message)
  | healthChange (h : float32) (f : Int) (s : float32)
  | death
  | playerChatMessage (msg : Message) (validated : Bool)
  deriving DecidableEq, Repr

/-- The listener registered for each event (lines 54-63). -/
def dispatch (lib : Library) (b : MinecraftBot) : Event → HandlerResult
  | Event.gameStart => onGameStart lib b
  | Event.disconnect reason => onDisconnect b reason
  | Event.healthChange h f s => onHealthChange b h f s
  | Event.death => onDeath b
  | Event.playerChatMessage msg validated => onPlayerMessage lib b msg validated

/-- The listeners for a run of events, one after the other; the goroutines
started are collected in order. -/
def dispatchAll (lib : Library) (b : MinecraftBot) : List Event → MinecraftBot × List Goroutine
  | [] => (b, [])
  | e :: es =>
    let r := dispatch lib b e
    let rest := dispatchAll lib r.bot es
    (rest.1, r.spawned ++ rest.2)

/-- One call of `b.client.HandleGame()`: the events whose listeners the
library invoked during the call, in order, and the error it returned.  The
`HandleGame` of go-mc reads and dispatches packets until one fails and returns
that error; the nil return is kept for the test `err != nil` of line 117. -/
structure StepOutcome where
  events : List Event
  err : error
  deriving DecidableEq, Repr

/-- What `handleGamePackets` has done on a finite run of step outcomes: the
bot, the `HandleGame` calls made (in order), the goroutines the listeners
started, and whether the function has returned (`false`: every outcome of the
run was used and the loop is about to call `HandleGame` again). -/
structure LoopResult where
  bot : MinecraftBot
  performed : List StepOutcome
  spawned : List Goroutine
  returned : Bool
  deriving DecidableEq, Repr

/-- `handleGamePackets` (lines 115-125) against the outcomes of its successive
`HandleGame` calls.  Each turn tests `b.isConnected`; a call that returns an
error clears the flag and the function returns. -/
def handleGamePackets (lib : Library) (b : MinecraftBot) : List StepOutcome → LoopResult
  | [] => { bot := b, performed := [], spawned := [], returned := !b.isConnected }
  | o :: rest =>
    if b.isConnected then
      let d := dispatchAll lib b o.events
      match o.err with
      | some _ =>
        { bot := { d.1 with isConnected := false }, performed := [o], spawned := d.2,
          returned := true }
      | none =>
        let r := handleGamePackets lib d.1 rest
        { bot := r.bot, performed := o :: r.performed, spawned := d.2 ++ r.spawned,
          returned := r.returned }
    else { bot := b, performed := [], spawned := [], returned := true }

/-! ## Goroutines and the clock -/

/-- The bot together with the part of the Go runtime its goroutines live in:
the clock (nanoseconds), the wake-up instants of the goroutines of `onDeath`
that are still asleep, and the `b.player.Respawn()` calls issued so far, each
with the instant its goroutine woke up and the receiver it read. -/
structure Sys where
  bot : MinecraftBot
  now : Int
  sleeping : List Int
  respawns : List (Int × Option Player)
  deriving DecidableEq, Repr

/-- A bot with the clock at 0 and no goroutine. -/
def Sys.init (b : MinecraftBot) : Sys :=
  { bot := b, now := 0, sleeping := [], respawns := [] }

/-- The statement `go func() { time.Sleep(d); b.player.Respawn() }()` for each
goroutine of the list: it is put to sleep until `now + d`. -/
def Sys.spawn (s : Sys) (gs : List Goroutine) : Sys :=
  { s with sleeping := s.sleeping ++ gs.map (fun g => s.now + g.sleep) }

/-- The clock advances by `d` nanoseconds.  Every sleeping goroutine whose
wake-up instant is reached runs on: it reads `b.player` and calls `Respawn()`.
The goroutine tests nothing before the call. -/
def Sys.elapse (s : Sys) (d : Nat) : Sys :=
  let t := s.now + (d : Int)
  let due := s.sleeping.filter (fun w => decide (w ≤ t))
  { s with now := t,
           sleeping := s.sleeping.filter (fun w => !decide (w ≤ t)),
           respawns := s.respawns ++ due.map (fun w => (w, s.bot.player)) }

/-- What can happen to the bot, one at a time: a call of a facade method by
the caller, an event listener invoked by the library, the error branch of
`handleGamePackets` (lines 118-122), the passing of time. -/
inductive Op where
  | connect (address name uuid token : String)
  | sendMessage (text : String)
  | getLastMessage
  | getHealth
  | waitForHealth (timeout : Int) (s : Sched)
  | waitForMessage (timeout : Int) (s : Sched)
  | event (e : Event)
  | loopError
  | elapse (d : Nat)
  deriving DecidableEq, Repr

/-- The effect of one `Op`. -/
def Sys.exec (lib : Library) (s : Sys) : Op → Sys
  | Op.connect address name uuid token =>
    { s with bot := (Connect lib s.bot address name uuid token).bot }
  | Op.sendMessage text => { s with bot := (SendMessage lib s.bot text).2 }
  | Op.getLastMessage => s
  | Op.getHealth => s
  | Op.waitForHealth timeout sc => { s with bot := (WaitForHealth s.bot timeout sc).2 }
  | Op.waitForMessage timeout sc => { s with bot := (WaitForMessage s.bot timeout sc).2 }
  | Op.event e =>
    let r := dispatch lib s.bot e
    Sys.spawn { s with bot := r.bot } r.spawned
  | Op.loopError => { s with bot := { s.bot with isConnected := false } }
  | Op.elapse d => s.elapse d

/-- A run of `Op`s, in order. -/
def Sys.run (lib : Library) (s : Sys) (ops : List Op) : Sys :=
  ops.foldl (Sys.exec lib) s

/-- Whether an `Op` is a health-change event. -/
def Op.isHealthChange : Op → Bool
  | Op.event (Event.healthChange _ _ _) => true
  | _ => false

/-- Whether an `Op` is a death event. -/
def Op.isDeath : Op → Bool
  | Op.event Event.death => true
  | _ => false

/-! ## Locking: the access script of each method -/

/-- The fields of `MinecraftBot` other than `mu`. -/
inductive Field where
  | client
  | player
  | chatHandler
  | lastMessage
  | lastHealth
  | isConnected
  | healthUpdated
  | messageReceived
  deriving DecidableEq, Repr

/-- The session fields: the connected flag, the last chat text, the last
health. -/
def Field.session : Field → Bool
  | Field.lastMessage => true
  | Field.lastHealth => true
  | Field.isConnected => true
  | _ => false

/-- What a method does to the mutex and to the fields: `b.mu.Lock()`,
`b.mu.Unlock()`, a read of a field, a write of a field. -/
inductive Access where
  | lock
  | unlock
  | read (f : Field)
  | write (f : Field)
  deriving DecidableEq, Repr

/-- Accesses of `Connect` in program order (lines 43-71); `joined` tells
whether `JoinServer` returned nil. -/
def ConnectScript (joined : Bool) : List Access :=
  [Access.write Field.healthUpdated,                                   -- 43
   Access.write Field.messageReceived,                                 -- 44
   Access.write Field.client,                                          -- 46
   Access.read Field.client,                                           -- 47
   Access.read Field.client, Access.write Field.player,                -- 54
   Access.read Field.client, Access.read Field.player,
   Access.read Field.client, Access.write Field.chatHandler,           -- 61
   Access.read Field.client] ++                                        -- 65
  (if joined then [Access.write Field.isConnected] else [])            -- 70

/-- Accesses of `SendMessage` (line 77). -/
def SendMessageScript : List Access := [Access.read Field.chatHandler]

/-- Accesses of `GetLastMessage` (lines 82-84); the deferred unlock runs
last. -/
def GetLastMessageScript : List Access :=
  [Access.lock, Access.read Field.lastMessage, Access.unlock]

/-- Accesses of `GetHealth` (lines 89-91). -/
def GetHealthScript : List Access :=
  [Access.lock, Access.read Field.lastHealth, Access.unlock]

/-- Accesses of `WaitForHealth` (line 97). -/
def WaitForHealthScript : List Access := [Access.read Field.healthUpdated]

/-- Accesses of `WaitForMessage` (line 107). -/
def WaitForMessageScript : List Access := [Access.read Field.messageReceived]

/-- Accesses of `onPlayerMessage` (lines 134-141). -/
def onPlayerMessageScript : List Access :=
  [Access.lock, Access.write Field.lastMessage, Access.read Field.messageReceived,
   Access.unlock]

/-- Accesses of `onHealthChange` (lines 145-152). -/
def onHealthChangeScript : List Access :=
  [Access.lock, Access.write Field.lastHealth, Access.read Field.healthUpdated,
   Access.unlock]

/-- Accesses of `onDisconnect` (lines 165-169). -/
def onDisconnectScript : List Access :=
  [Access.lock, Access.write Field.isConnected, Access.unlock]

/-- Accesses of the listener of an event; `onDeath` itself touches no field
and `onGameStart` is a `SendMessage`. -/
def eventScript : Event → List Access
  | Event.gameStart => SendMessageScript
  | Event.disconnect _ => onDisconnectScript
  | Event.healthChange _ _ _ => onHealthChangeScript
  | Event.death => []
  | Event.playerChatMessage _ _ => onPlayerMessageScript

/-- Accesses of `handleGamePackets` (lines 116-122) against the outcomes of
its `HandleGame` calls, the listeners run during a call included: the loop
test of line 116, the call on `b.client` of line 117, and on an error the
locked write of lines 119-121. -/
def handleGamePacketsScript (lib : Library) (b : MinecraftBot) : List StepOutcome → List Access
  | [] => [Access.read Field.isConnected]
  | o :: rest =>
    Access.read Field.isConnected ::
      (if b.isConnected then
        Access.read Field.client :: (o.events.map eventScript).flatten ++
          (match o.err with
           | some _ => [Access.lock, Access.write Field.isConnected, Access.unlock]
           | none => handleGamePacketsScript lib (dispatchAll lib b o.events).1 rest)
       else [])

/-- Whether every read and write of a session field in the script happens
between a lock and the next unlock; `held` is whether the mutex is held at the
start. -/
def disciplined : Bool → List Access → Bool
  | _, [] => true
  | _, Access.lock :: rest => disciplined true rest
  | _, Access.unlock :: rest => disciplined false rest
  | held, Access.read f :: rest => (!f.session || held) && disciplined held rest
  | held, Access.write f :: rest => (!f.session || held) && disciplined held rest

/-! ## Runs of signals and concrete data for the examples -/

/-- The listener `onPlayerMessage` invoked once per entry of the list, with
nothing else in between. -/
def signalMessages (lib : Library) (b : MinecraftBot) : List (Message × Bool) → MinecraftBot
  | [] => b
  | m :: ms => signalMessages lib (onPlayerMessage lib b m.1 m.2).bot ms

/-- The listener `onHealthChange` invoked once per entry of the list, with
nothing else in between. -/
def signalHealths (b : MinecraftBot) : List (float32 × Int × float32) → MinecraftBot
  | [] => b
  | h :: hs => signalHealths (onHealthChange b h.1 h.2.1 h.2.2).bot hs

/-- Both channels of the bot have been made (neither is nil), as `Connect`
leaves them. -/
def ChannelsMade (b : MinecraftBot) : Prop :=
  b.healthUpdated ≠ Chan.nil ∧ b.messageReceived ≠ Chan.nil

/-- Whether the event is a disconnect. -/
def Event.isDisconnect : Event → Bool
  | Event.disconnect _ => true
  | _ => false

/-- Whether a `HandleGame` call ends the packet loop: it returned an error, or
a disconnect listener ran during it. -/
def StepOutcome.halts (o : StepOutcome) : Bool :=
  o.err.isSome || o.events.any Event.isDisconnect

/-- No sleeping goroutine of `onDeath` wakes later than `5 * time.Second`
from now. -/
def Sys.Bounded (s : Sys) : Prop :=
  ∀ w ∈ s.sleeping, w ≤ s.now + 5 * Second

/-- What `handleGamePackets` relies on from the library: a `HandleGame` call
that returns nil has not run the disconnect listener.  It holds of every run
of a `HandleGame` that returns only with an error, as the one of go-mc. -/
def HandleGameContract (steps : List StepOutcome) : Prop :=
  ∀ x ∈ steps, x.err = none → x.events.any Event.isDisconnect = false

/-- A library whose calls all succeed and which renders a message as its raw
text. -/
def libOk : Library :=
  { JoinServer := fun _ _ => none, SendMessage := fun _ _ => none, String := fun m => m.raw }

/-- A library whose `JoinServer` fails with "connection refused". -/
def libRefused : Library :=
  { JoinServer := fun _ _ => some "connection refused", SendMessage := fun _ _ => none,
    String := fun m => m.raw }

/-- The bot after a new bot has connected. -/
def botConnected : MinecraftBot :=
  (Connect libOk NewBot "localhost:25565" "k6" "" "").bot

/-- The float32 15.5, bits 0x41780000. -/
def health15_5 : float32 := ⟨0x41780000⟩

/-- The connected bot after a chat message "hello" and a health change to
15.5. -/
def botAfterEvents : MinecraftBot :=
  (onHealthChange (onPlayerMessage libOk botConnected ⟨"hello"⟩ true).bot health15_5 20 ⟨0x40A00000⟩).bot

end Minecraft

namespace Minecraft

/-! ## Channels and `select` -/

theorem selectRecv_of_not_full (c : Chan) (timeout : Int) (s : Sched) (h : c ≠ Chan.full) :
    selectRecv c timeout s = (false, c) := by
  cases c <;> simp [selectRecv, Chan.canRecv] at h ⊢

theorem selectRecv_full_of_not_fired (timeout : Int) (s : Sched)
    (h : (s.elapsed : Int) < timeoutDuration timeout) :
    selectRecv Chan.full timeout s = (true, Chan.empty) := by
  have hf : timerFired timeout s = false := by
    simp [timerFired, h]
  simp [selectRecv, Chan.canRecv, Chan.recv, hf]

theorem trySend_ne_nil (c : Chan) (h : c ≠ Chan.nil) : c.trySend = Chan.full := by
  cases c <;> simp [Chan.trySend] at h ⊢

theorem signalMessages_frame (lib : Library) (ms : List (Message × Bool)) (b : MinecraftBot) :
    (signalMessages lib b ms).healthUpdated = b.healthUpdated ∧
    (signalMessages lib b ms).lastHealth = b.lastHealth ∧
    (signalMessages lib b ms).isConnected = b.isConnected := by
  induction ms generalizing b with
  | nil => simp [signalMessages]
  | cons m ms ih =>
    simp only [signalMessages]
    have := ih (onPlayerMessage lib b m.1 m.2).bot
    simpa [onPlayerMessage] using this

theorem signalMessages_slot (lib : Library) (ms : List (Message × Bool)) (b : MinecraftBot)
    (hb : b.messageReceived ≠ Chan.nil) (hms : ms ≠ []) :
    (signalMessages lib b ms).messageReceived = Chan.full := by
  induction ms generalizing b with
  | nil => exact absurd rfl hms
  | cons m ms ih =>
    simp only [signalMessages]
    have h1 : (onPlayerMessage lib b m.1 m.2).bot.messageReceived = Chan.full := by
      simp [onPlayerMessage, trySend_ne_nil _ hb]
    cases ms with
    | nil => simpa [signalMessages] using h1
    | cons m2 ms2 =>
      exact ih _ (by rw [h1]; decide) (by simp)

theorem signalHealths_slot (hs : List (float32 × Int × float32)) (b : MinecraftBot)
    (hb : b.healthUpdated ≠ Chan.nil) (hhs : hs ≠ []) :
    (signalHealths b hs).healthUpdated = Chan.full := by
  induction hs generalizing b with
  | nil => exact absurd rfl hhs
  | cons m ms ih =>
    simp only [signalHealths]
    have h1 : (onHealthChange b m.1 m.2.1 m.2.2).bot.healthUpdated = Chan.full := by
      simp [onHealthChange, trySend_ne_nil _ hb]
    cases ms with
    | nil => simpa [signalHealths] using h1
    | cons m2 ms2 =>
      exact ih _ (by rw [h1]; decide) (by simp)

theorem WaitForHealth_of_not_full (b : MinecraftBot) (timeout : Int) (s : Sched)
    (h : b.healthUpdated ≠ Chan.full) : WaitForHealth b timeout s = (false, b) := by
  simp [WaitForHealth, selectRecv_of_not_full _ timeout s h]

theorem WaitForMessage_of_not_full (b : MinecraftBot) (timeout : Int) (s : Sched)
    (h : b.messageReceived ≠ Chan.full) : WaitForMessage b timeout s = (false, b) := by
  simp [WaitForMessage, selectRecv_of_not_full _ timeout s h]

theorem WaitForHealth_of_full (b : MinecraftBot) (timeout : Int) (s : Sched)
    (hb : b.healthUpdated = Chan.full) (h : (s.elapsed : Int) < timeoutDuration timeout) :
    WaitForHealth b timeout s = (true, { b with healthUpdated := Chan.empty }) := by
  simp [WaitForHealth, hb, selectRecv_full_of_not_fired timeout s h]

theorem WaitForMessage_of_full (b : MinecraftBot) (timeout : Int) (s : Sched)
    (hb : b.messageReceived = Chan.full) (h : (s.elapsed : Int) < timeoutDuration timeout) :
    WaitForMessage b timeout s = (true, { b with messageReceived := Chan.empty }) := by
  simp [WaitForMessage, hb, selectRecv_full_of_not_fired timeout s h]

/-! ## C1: coalescing -/

/-- C1, as stated, fails: on the connected bot after one chat signal the slot
holds its token, yet `WaitForMessage(0)` whose select takes the timer case
returns false and leaves the token, and the next wait, with no new signal,
returns true; the same first wait with the timeout 9223372036855, whose
duration in nanoseconds wraps around to a negative `int64`, returns false
too. -/
theorem coalescing_fails_for_zero_timeout :
    (signalMessages libOk botConnected [(⟨"hello"⟩, true)]).messageReceived = Chan.full ∧
    (WaitForMessage (signalMessages libOk botConnected [(⟨"hello"⟩, true)]) 0 ⟨0, true⟩).1
      = false ∧
    (WaitForMessage
      (WaitForMessage (signalMessages libOk botConnected [(⟨"hello"⟩, true)]) 0 ⟨0, true⟩).2
      1000 ⟨0, false⟩).1 = true ∧
    timeoutDuration 9223372036855 < 0 ∧
    (WaitForMessage (signalMessages libOk botConnected [(⟨"hello"⟩, true)]) 9223372036855
      ⟨0, true⟩).1 = false := by
  decide

/-- C1, amended: on a bot whose channels have been made by `Connect`, after
n ≥ 1 consecutive signals of one kind (chat messages through
`onPlayerMessage`, health changes through `onHealthChange`) the first wait on
that slot returns true and empties it, for every timeout whose timer has not
run out when the select polls, and a second wait with no new signal returns
false, for every timeout and every choice of the runtime. -/
theorem coalescing (lib : Library) (b : MinecraftBot) (ms : List (Message × Bool))
    (hs : List (float32 × Int × float32)) (t1 t2 : Int) (s1 s2 : Sched)
    (hm : b.messageReceived ≠ Chan.nil) (hh : b.healthUpdated ≠ Chan.nil)
    (hms : 1 ≤ ms.length) (hhs : 1 ≤ hs.length)
    (ht : (s1.elapsed : Int) < timeoutDuration t1) :
    ((WaitForMessage (signalMessages lib b ms) t1 s1).1 = true ∧
     (WaitForMessage (signalMessages lib b ms) t1 s1).2.messageReceived = Chan.empty ∧
     (WaitForMessage (WaitForMessage (signalMessages lib b ms) t1 s1).2 t2 s2).1 = false) ∧
    ((WaitForHealth (signalHealths b hs) t1 s1).1 = true ∧
     (WaitForHealth (signalHealths b hs) t1 s1).2.healthUpdated = Chan.empty ∧
     (WaitForHealth (WaitForHealth (signalHealths b hs) t1 s1).2 t2 s2).1 = false) := by
  have hms2 : ms ≠ [] := by
    intro h0
    simp [h0] at hms
  have hhs2 : hs ≠ [] := by
    intro h0
    simp [h0] at hhs
  have e1 := WaitForMessage_of_full _ t1 s1 (signalMessages_slot lib ms b hm hms2) ht
  have e2 := WaitForHealth_of_full _ t1 s1 (signalHealths_slot hs b hh hhs2) ht
  refine ⟨⟨?_, ?_, ?_⟩, ?_, ?_, ?_⟩
  · rw [e1]
  · rw [e1]
  · rw [e1, WaitForMessage_of_not_full _ t2 s2 (by simp)]
  · rw [e2]
  · rw [e2]
  · rw [e2, WaitForHealth_of_not_full _ t2 s2 (by simp)]

/-- Witness of `coalescing`: three chat messages and two health changes on the
connected bot, first wait with 1000 ms. -/
theorem coalescing_witness :
    ((WaitForMessage (signalMessages libOk botConnected
        [(⟨"a"⟩, true), (⟨"b"⟩, false), (⟨"c"⟩, true)]) 1000 ⟨0, true⟩).1 = true ∧
     (WaitForMessage (signalMessages libOk botConnected
        [(⟨"a"⟩, true), (⟨"b"⟩, false), (⟨"c"⟩, true)]) 1000 ⟨0, true⟩).2.messageReceived
        = Chan.empty ∧
     (WaitForMessage (WaitForMessage (signalMessages libOk botConnected
        [(⟨"a"⟩, true), (⟨"b"⟩, false), (⟨"c"⟩, true)]) 1000 ⟨0, true⟩).2 0 ⟨0, false⟩).1
        = false) ∧
    ((WaitForHealth (signalHealths botConnected
        [(health15_5, 20, ⟨0⟩), (⟨0⟩, 0, ⟨0⟩)]) 1000 ⟨0, true⟩).1 = true ∧
     (WaitForHealth (signalHealths botConnected
        [(health15_5, 20, ⟨0⟩), (⟨0⟩, 0, ⟨0⟩)]) 1000 ⟨0, true⟩).2.healthUpdated
        = Chan.empty ∧
     (WaitForHealth (WaitForHealth (signalHealths botConnected
        [(health15_5, 20, ⟨0⟩), (⟨0⟩, 0, ⟨0⟩)]) 1000 ⟨0, true⟩).2 0 ⟨0, false⟩).1
        = false) :=
  coalescing libOk botConnected [(⟨"a"⟩, true), (⟨"b"⟩, false), (⟨"c"⟩, true)]
    [(health15_5, 20, ⟨0⟩), (⟨0⟩, 0, ⟨0⟩)] 1000 0 ⟨0, true⟩ ⟨0, false⟩
    (by decide) (by decide) (by decide) (by decide) (by decide)

/-! ## C6: a wait on an empty slot -/

/-- C6: when the health slot holds no token, `WaitForHealth` returns false for
every timeout (and every choice of the runtime) and leaves the whole bot as it
was, both slots, `lastMessage`, `lastHealth` and the connected flag included;
likewise `WaitForMessage` on the message slot; and a wait never changes the
other slot, whatever it holds.  No signal arrives during the wait: the methods
are run with no other goroutine in between. -/
theorem wait_without_token_returns_false (b : MinecraftBot) (timeout : Int) (s : Sched) :
    (b.healthUpdated ≠ Chan.full → WaitForHealth b timeout s = (false, b)) ∧
    (b.messageReceived ≠ Chan.full → WaitForMessage b timeout s = (false, b)) ∧
    (WaitForHealth b timeout s).2.messageReceived = b.messageReceived ∧
    (WaitForMessage b timeout s).2.healthUpdated = b.healthUpdated :=
  ⟨WaitForHealth_of_not_full b timeout s, WaitForMessage_of_not_full b timeout s,
    by simp [WaitForHealth], by simp [WaitForMessage]⟩

/-- Witness of `wait_without_token_returns_false`: on the bot just connected
both waits time out; on the bot with both tokens pending a wait on one slot
leaves the token of the other. -/
theorem wait_without_token_returns_false_witness :
    botConnected.isConnected = true ∧
    WaitForHealth botConnected 500 ⟨0, false⟩ = (false, botConnected) ∧
    WaitForMessage botConnected 500 ⟨0, false⟩ = (false, botConnected) ∧
    (WaitForHealth botAfterEvents 500 ⟨0, false⟩).2.messageReceived = Chan.full ∧
    (WaitForMessage botAfterEvents 500 ⟨0, false⟩).2.healthUpdated = Chan.full :=
  ⟨by decide,
   (wait_without_token_returns_false botConnected 500 ⟨0, false⟩).1 (by decide),
   (wait_without_token_returns_false botConnected 500 ⟨0, false⟩).2.1 (by decide),
   (wait_without_token_returns_false botAfterEvents 500 ⟨0, false⟩).2.2.1.trans (by decide),
   (wait_without_token_returns_false botAfterEvents 500 ⟨0, false⟩).2.2.2.trans (by decide)⟩

/-! ## Runs of operations -/

theorem Sys.run_cons (lib : Library) (s : Sys) (op : Op) (ops : List Op) :
    Sys.run lib s (op :: ops) = Sys.run lib (Sys.exec lib s op) ops := rfl

theorem Sys.run_append (lib : Library) (s : Sys) (ops1 ops2 : List Op) :
    Sys.run lib s (ops1 ++ ops2) = Sys.run lib (Sys.run lib s ops1) ops2 := by
  simp [Sys.run, List.foldl_append]

theorem dispatch_lastHealth (lib : Library) (b : MinecraftBot) (e : Event)
    (he : (Op.event e).isHealthChange = false) :
    (dispatch lib b e).bot.lastHealth = b.lastHealth := by
  cases e <;>
    simp [dispatch, onGameStart, SendMessage, onDisconnect, onDeath, onPlayerMessage,
      Op.isHealthChange] at he ⊢

theorem Sys.exec_lastHealth (lib : Library) (s : Sys) (op : Op)
    (hop : op.isHealthChange = false) :
    (Sys.exec lib s op).bot.lastHealth = s.bot.lastHealth := by
  cases op with
  | connect address name uuid token =>
    simp only [Sys.exec, Connect]
    split <;> rfl
  | event e => simpa [Sys.exec, Sys.spawn] using dispatch_lastHealth lib s.bot e hop
  | _ => simp [Sys.exec, SendMessage, WaitForHealth, WaitForMessage, Sys.elapse]

theorem Sys.run_lastHealth (lib : Library) (ops : List Op) (s : Sys)
    (hops : ∀ op ∈ ops, op.isHealthChange = false) :
    (Sys.run lib s ops).bot.lastHealth = s.bot.lastHealth := by
  induction ops generalizing s with
  | nil => rfl
  | cons op ops ih =>
    rw [Sys.run_cons, ih _ (fun o ho => hops o (List.mem_cons_of_mem _ ho)),
      Sys.exec_lastHealth lib s op (hops op (List.mem_cons_self _ _))]

theorem trySend_made (c : Chan) (h : c ≠ Chan.nil) : c.trySend ≠ Chan.nil := by
  cases c <;> simp [Chan.trySend] at h ⊢

theorem selectRecv_made (c : Chan) (timeout : Int) (s : Sched) (h : c ≠ Chan.nil) :
    (selectRecv c timeout s).2 ≠ Chan.nil := by
  unfold selectRecv
  split
  · cases c <;> simp [Chan.recv] at h ⊢
  · exact h

theorem Connect_channelsMade (lib : Library) (b : MinecraftBot)
    (address name uuid token : String) :
    ChannelsMade (Connect lib b address name uuid token).bot := by
  simp only [Connect]
  split <;> simp [ChannelsMade, Chan.make]

theorem Sys.exec_invariant (lib : Library) (s : Sys) (op : Op)
    (h : s.bot.isConnected = true → ChannelsMade s.bot) :
    (Sys.exec lib s op).bot.isConnected = true → ChannelsMade (Sys.exec lib s op).bot := by
  cases op with
  | connect address name uuid token =>
    intro _
    exact Connect_channelsMade lib s.bot address name uuid token
  | event e =>
    cases e <;>
      simp only [Sys.exec, Sys.spawn, dispatch, onGameStart, SendMessage, onDisconnect, onDeath,
        onPlayerMessage, onHealthChange, ChannelsMade] at h ⊢
    · exact h
    · intro h2
      exact absurd h2 (by simp)
    · intro h2
      exact ⟨trySend_made _ (h h2).1, (h h2).2⟩
    · exact h
    · intro h2
      exact ⟨(h h2).1, trySend_made _ (h h2).2⟩
  | waitForHealth timeout sc =>
    simp only [Sys.exec, WaitForHealth, ChannelsMade] at h ⊢
    intro h2
    exact ⟨selectRecv_made _ _ _ (h h2).1, (h h2).2⟩
  | waitForMessage timeout sc =>
    simp only [Sys.exec, WaitForMessage, ChannelsMade] at h ⊢
    intro h2
    exact ⟨(h h2).1, selectRecv_made _ _ _ (h h2).2⟩
  | loopError =>
    intro h2
    exact absurd h2 (by simp [Sys.exec])
  | sendMessage text => simpa [Sys.exec, SendMessage] using h
  | getLastMessage => simpa [Sys.exec] using h
  | getHealth => simpa [Sys.exec] using h
  | elapse d => simpa [Sys.exec, Sys.elapse] using h

/-- Every bot reached from `NewBot` that has its connected flag set has both
channels made: the flag is only set by `Connect`, which makes the channels
first, and no method stores a nil channel. -/
theorem connected_channelsMade (lib : Library) (ops : List Op) :
    (Sys.run lib (Sys.init NewBot) ops).bot.isConnected = true →
      ChannelsMade (Sys.run lib (Sys.init NewBot) ops).bot := by
  have key : ∀ (ops : List Op) (s : Sys),
      (s.bot.isConnected = true → ChannelsMade s.bot) →
      ((Sys.run lib s ops).bot.isConnected = true → ChannelsMade (Sys.run lib s ops).bot) := by
    intro ops
    induction ops with
    | nil => intro s h; exact h
    | cons op ops ih =>
      intro s h
      rw [Sys.run_cons]
      exact ih _ (Sys.exec_invariant lib s op h)
  exact key ops (Sys.init NewBot) (fun h => absurd h (by simp [Sys.init, NewBot]))

/-! ## C2: health, last write wins -/

/-- C2, as stated, fails: on the connected bot after the health change to 15.5
the slot holds its token, yet `WaitForHealth(0)` whose select takes the timer
case returns false and leaves the token; and on the zero-valued bot of
`NewBot`, whose channels are nil, the slot holds no token after the event. -/
theorem health_wait_fails_for_zero_timeout :
    (onHealthChange botConnected health15_5 20 ⟨0⟩).bot.healthUpdated = Chan.full ∧
    GetHealth (onHealthChange botConnected health15_5 20 ⟨0⟩).bot = health15_5 ∧
    (WaitForHealth (onHealthChange botConnected health15_5 20 ⟨0⟩).bot 0 ⟨0, true⟩).1
      = false ∧
    (WaitForHealth (onHealthChange botConnected health15_5 20 ⟨0⟩).bot 0
      ⟨0, true⟩).2.healthUpdated = Chan.full ∧
    (onHealthChange NewBot health15_5 20 ⟨0⟩).bot.healthUpdated = Chan.nil := by
  decide

/-- C2, amended: after `onHealthChange(h, _, _)` `GetHealth` returns `h`, and it still
returns `h` at every point of any run of other operations (calls of the facade
methods, `Connect` included, chat, death, disconnect and game-start events,
the error branch of the packet loop, the passing of time) that holds no
health-change event; the handler's result does not depend on the two other
arguments; and when the health channel has been made the slot holds a token
right after the event, so that a `WaitForHealth` whose timer has not run out
when it polls returns true. -/
theorem health_last_write_wins (lib : Library) (s : Sys) (h : float32) (f f2 : Int)
    (g g2 : float32) (ops : List Op) (k : Nat) (timeout : Int) (sc : Sched)
    (hops : ∀ op ∈ ops, op.isHealthChange = false) :
    (onHealthChange s.bot h f g).err = none ∧
    GetHealth (onHealthChange s.bot h f g).bot = h ∧
    GetHealth (Sys.run lib (Sys.exec lib s (Op.event (Event.healthChange h f g)))
      (ops.take k)).bot = h ∧
    onHealthChange s.bot h f g = onHealthChange s.bot h f2 g2 ∧
    (s.bot.healthUpdated ≠ Chan.nil →
      (onHealthChange s.bot h f g).bot.healthUpdated = Chan.full ∧
      ((sc.elapsed : Int) < timeoutDuration timeout →
        (WaitForHealth (onHealthChange s.bot h f g).bot timeout sc).1 = true)) := by
  refine ⟨rfl, rfl, ?_, rfl, ?_⟩
  · rw [GetHealth, Sys.run_lastHealth lib _ _
      (fun o ho => hops o (List.mem_of_mem_take ho))]
    rfl
  · intro hmade
    have hfull : (onHealthChange s.bot h f g).bot.healthUpdated = Chan.full := by
      simp [onHealthChange, trySend_ne_nil _ hmade]
    refine ⟨hfull, fun ht => ?_⟩
    rw [WaitForHealth_of_full _ timeout sc hfull ht]

/-- Witness of `health_last_write_wins`: health 15.5 on the connected bot,
followed by a chat message, a death, a disconnect, reads, waits, a send and
five seconds; `WaitForHealth(500)` right after the event returns true. -/
theorem health_last_write_wins_witness :
    GetHealth (Sys.run libOk
      (Sys.exec libOk (Sys.init botConnected) (Op.event (Event.healthChange health15_5 20 ⟨0⟩)))
      ([Op.event (Event.playerChatMessage ⟨"hello"⟩ true), Op.event Event.death,
        Op.getHealth, Op.waitForHealth 500 ⟨0, false⟩, Op.waitForMessage 0 ⟨0, true⟩,
        Op.event (Event.disconnect ⟨"bye"⟩), Op.sendMessage "hi", Op.getLastMessage,
        Op.elapse 5000000000].take 9)).bot = health15_5 ∧
    (WaitForHealth (onHealthChange (Sys.init botConnected).bot health15_5 20 ⟨0⟩).bot 500
      ⟨0, true⟩).1 = true :=
  ⟨(health_last_write_wins libOk (Sys.init botConnected) health15_5 20 0 ⟨0⟩ ⟨1⟩
      [Op.event (Event.playerChatMessage ⟨"hello"⟩ true), Op.event Event.death,
        Op.getHealth, Op.waitForHealth 500 ⟨0, false⟩, Op.waitForMessage 0 ⟨0, true⟩,
        Op.event (Event.disconnect ⟨"bye"⟩), Op.sendMessage "hi", Op.getLastMessage,
        Op.elapse 5000000000] 9 500 ⟨0, true⟩ (by decide)).2.2.1,
   ((health_last_write_wins libOk (Sys.init botConnected) health15_5 20 0 ⟨0⟩ ⟨1⟩
      [] 0 500 ⟨0, true⟩ (by decide)).2.2.2.2 (by decide)).2 (by decide)⟩

/-! ## C3: chat events -/

/-- C3, as stated, fails: on the connected bot after the chat message "hello"
`GetLastMessage` returns "hello" and the slot holds its token, yet
`WaitForMessage(0)` whose select takes the timer case returns false and a
further `WaitForMessage(1000)` with no new event returns true: false then
true, not true then false; and on the zero-valued bot of `NewBot`, whose
channels are nil, the slot holds no token after the event. -/
theorem chat_wait_fails_for_zero_timeout :
    GetLastMessage (onPlayerMessage libOk botConnected ⟨"hello"⟩ true).bot = "hello" ∧
    (onPlayerMessage libOk botConnected ⟨"hello"⟩ true).bot.messageReceived = Chan.full ∧
    (WaitForMessage (onPlayerMessage libOk botConnected ⟨"hello"⟩ true).bot 0 ⟨0, true⟩).1
      = false ∧
    (WaitForMessage (WaitForMessage (onPlayerMessage libOk botConnected ⟨"hello"⟩ true).bot 0
      ⟨0, true⟩).2 1000 ⟨0, true⟩).1 = true ∧
    (onPlayerMessage libOk NewBot ⟨"hello"⟩ true).bot.messageReceived = Chan.nil := by
  decide

/-- C3, amended: `onPlayerMessage(m, validated)` returns nil, sets `lastMessage` to
`m.String()` (which `GetLastMessage` then returns), leaves `lastHealth`, the
connected flag and the health slot (and the handles) as they were, and does
the same whatever `validated` is; when the message channel has been made the
slot holds its one token afterwards, so that a `WaitForMessage` whose timer
has not run out when it polls returns true and empties the slot, and a
further `WaitForMessage` with no new event returns false. -/
theorem chat_event (lib : Library) (b : MinecraftBot) (m : Message) (validated v2 : Bool)
    (t1 t2 : Int) (s1 s2 : Sched) :
    (onPlayerMessage lib b m validated).err = none ∧
    GetLastMessage (onPlayerMessage lib b m validated).bot = lib.String m ∧
    (onPlayerMessage lib b m validated).bot =
      { b with lastMessage := lib.String m, messageReceived := b.messageReceived.trySend } ∧
    (onPlayerMessage lib b m validated).bot.lastHealth = b.lastHealth ∧
    (onPlayerMessage lib b m validated).bot.isConnected = b.isConnected ∧
    (onPlayerMessage lib b m validated).bot.healthUpdated = b.healthUpdated ∧
    onPlayerMessage lib b m validated = onPlayerMessage lib b m v2 ∧
    (b.messageReceived ≠ Chan.nil →
      (onPlayerMessage lib b m validated).bot.messageReceived = Chan.full ∧
      ((s1.elapsed : Int) < timeoutDuration t1 →
        (WaitForMessage (onPlayerMessage lib b m validated).bot t1 s1).1 = true ∧
        (WaitForMessage (WaitForMessage (onPlayerMessage lib b m validated).bot t1 s1).2
          t2 s2).1 = false)) := by
  refine ⟨rfl, rfl, rfl, rfl, rfl, rfl, rfl, ?_⟩
  intro hmade
  have hfull : (onPlayerMessage lib b m validated).bot.messageReceived = Chan.full := by
    simp [onPlayerMessage, trySend_ne_nil _ hmade]
  refine ⟨hfull, fun ht => ?_⟩
  rw [WaitForMessage_of_full _ t1 s1 hfull ht]
  exact ⟨rfl, by rw [WaitForMessage_of_not_full _ t2 s2 (by simp)]⟩

/-- Witness of `chat_event`: the message "hello" on the connected bot, then
`WaitForMessage(1000)` twice. -/
theorem chat_event_witness :
    GetLastMessage (onPlayerMessage libOk botConnected ⟨"hello"⟩ true).bot = "hello" ∧
    (onPlayerMessage libOk botConnected ⟨"hello"⟩ true).bot.messageReceived = Chan.full ∧
    (WaitForMessage (onPlayerMessage libOk botConnected ⟨"hello"⟩ true).bot 1000 ⟨0, true⟩).1
      = true ∧
    (WaitForMessage (WaitForMessage (onPlayerMessage libOk botConnected ⟨"hello"⟩ true).bot
      1000 ⟨0, true⟩).2 1000 ⟨0, true⟩).1 = false :=
  ⟨(chat_event libOk botConnected ⟨"hello"⟩ true false 1000 1000 ⟨0, true⟩ ⟨0, true⟩).2.1,
   ((chat_event libOk botConnected ⟨"hello"⟩ true false 1000 1000 ⟨0, true⟩
      ⟨0, true⟩).2.2.2.2.2.2.2 (by decide)).1,
   ((chat_event libOk botConnected ⟨"hello"⟩ true false 1000 1000 ⟨0, true⟩
      ⟨0, true⟩).2.2.2.2.2.2.2 (by decide)).2 (by decide)⟩

/-! ## C8: disconnect and send -/

/-- C8: `onDisconnect(reason)` returns nil, clears the connected flag and
changes nothing else (`lastMessage`, `lastHealth`, both slots, the handles; no
goroutine is started); `SendMessage(text)` returns what the chat handler's
`SendMessage` returns for that text, the same whether the connected flag is
set or not, and leaves the bot as it was. -/
theorem disconnect_and_send (lib : Library) (b : MinecraftBot) (reason : Message)
    (text : String) (flag : Bool) :
    (onDisconnect b reason).err = none ∧
    (onDisconnect b reason).bot.isConnected = false ∧
    (onDisconnect b reason).bot = { b with isConnected := false } ∧
    (onDisconnect b reason).bot.lastMessage = b.lastMessage ∧
    (onDisconnect b reason).bot.lastHealth = b.lastHealth ∧
    (onDisconnect b reason).bot.healthUpdated = b.healthUpdated ∧
    (onDisconnect b reason).bot.messageReceived = b.messageReceived ∧
    (onDisconnect b reason).spawned = [] ∧
    (SendMessage lib b text).1 = lib.SendMessage b.chatHandler text ∧
    (SendMessage lib { b with isConnected := flag } text).1 = (SendMessage lib b text).1 ∧
    (SendMessage lib b text).2 = b :=
  ⟨rfl, rfl, rfl, rfl, rfl, rfl, rfl, rfl, rfl, rfl, rfl⟩

/-! ## C4: a failed Connect -/

/-- C4, as stated, fails: on the connected bot with a chat token pending (a
`WaitForMessage(1000)` would return true) a `Connect` whose join is refused
returns the error, yet the message slot is a new empty channel (the same wait
now returns false), the client is another one, and the connected flag is set
afterwards; and on a new bot the state is not what it was either. -/
theorem connect_failure_changes_state :
    (Connect libRefused botAfterEvents "localhost:25565" "k6-2" "" "").err
      = some "connection refused" ∧
    botAfterEvents.messageReceived = Chan.full ∧
    (Connect libRefused botAfterEvents "localhost:25565" "k6-2" "" "").bot.messageReceived
      = Chan.empty ∧
    (WaitForMessage botAfterEvents 1000 ⟨0, false⟩).1 = true ∧
    (WaitForMessage (Connect libRefused botAfterEvents "localhost:25565" "k6-2" "" "").bot
      1000 ⟨0, false⟩).1 = false ∧
    (Connect libRefused botAfterEvents "localhost:25565" "k6-2" "" "").bot.client
      ≠ botAfterEvents.client ∧
    (Connect libRefused botAfterEvents "localhost:25565" "k6-2" "" "").bot.isConnected = true ∧
    (Connect libRefused NewBot "localhost:25565" "k6" "" "").bot ≠ NewBot := by
  decide

/-- C4, amended: when the join fails with error `e`, `Connect` returns exactly
`e`, starts no packet loop, and leaves `lastMessage`, `lastHealth` and the
connected flag as they were, so that the flag is false afterwards when it was
false before; the client and the handler objects are the ones built for this
attempt and both slots are new empty channels. -/
theorem connect_failure (lib : Library) (b : MinecraftBot) (address name uuid token : String)
    (e : Err)
    (hjoin : lib.JoinServer { Auth := { Name := name, UUID := uuid, AsTk := token } } address
      = some e) :
    (Connect lib b address name uuid token).err = some e ∧
    (Connect lib b address name uuid token).loopStarted = false ∧
    (Connect lib b address name uuid token).bot.lastMessage = b.lastMessage ∧
    (Connect lib b address name uuid token).bot.lastHealth = b.lastHealth ∧
    (Connect lib b address name uuid token).bot.isConnected = b.isConnected ∧
    (b.isConnected = false →
      (Connect lib b address name uuid token).bot.isConnected = false) ∧
    (Connect lib b address name uuid token).bot.healthUpdated = Chan.empty ∧
    (Connect lib b address name uuid token).bot.messageReceived = Chan.empty ∧
    (Connect lib b address name uuid token).bot.client
      = some { Auth := { Name := name, UUID := uuid, AsTk := token } } ∧
    (Connect lib b address name uuid token).bot.player
      = some { client := { Auth := { Name := name, UUID := uuid, AsTk := token } } } ∧
    (Connect lib b address name uuid token).bot.chatHandler
      = some { client := { Auth := { Name := name, UUID := uuid, AsTk := token } },
               player := { client := { Auth := { Name := name, UUID := uuid, AsTk := token } } } }
    := by
  simp [Connect, hjoin, Chan.make]

/-- Witness of `connect_failure`: a refused join on a new bot. -/
theorem connect_failure_witness :
    (Connect libRefused NewBot "localhost:25565" "k6" "" "").err = some "connection refused" ∧
    (Connect libRefused NewBot "localhost:25565" "k6" "" "").loopStarted = false ∧
    (Connect libRefused NewBot "localhost:25565" "k6" "" "").bot.isConnected = false :=
  ⟨(connect_failure libRefused NewBot "localhost:25565" "k6" "" "" "connection refused" rfl).1,
   (connect_failure libRefused NewBot "localhost:25565" "k6" "" "" "connection refused"
      rfl).2.1,
   (connect_failure libRefused NewBot "localhost:25565" "k6" "" "" "connection refused"
      rfl).2.2.2.2.2.1 rfl⟩

/-! ## C5: a successful Connect -/

/-- C5, as stated, fails: on the bot left by a connection that received the
chat message "hello" and the health 15.5, a successful `Connect` leaves
`GetLastMessage` returning "hello" and `GetHealth` returning 15.5, not the
empty string and 0. -/
theorem connect_keeps_last_values :
    (Connect libOk botAfterEvents "localhost:25565" "k6" "" "").err = none ∧
    GetLastMessage (Connect libOk botAfterEvents "localhost:25565" "k6" "" "").bot = "hello" ∧
    GetLastMessage (Connect libOk botAfterEvents "localhost:25565" "k6" "" "").bot ≠ "" ∧
    GetHealth (Connect libOk botAfterEvents "localhost:25565" "k6" "" "").bot = health15_5 ∧
    GetHealth (Connect libOk botAfterEvents "localhost:25565" "k6" "" "").bot
      ≠ float32.zero := by
  decide

/-- C5, amended: after a successful `Connect` on any bot the connected flag is
set, the packet loop is started, and both slots are new empty channels, so
that nothing of an earlier connection is pending: `WaitForMessage` and
`WaitForHealth` return false until a new event; `lastMessage` and `lastHealth`
are left as they were, hence the empty string and 0 on a bot that has them so,
such as a new bot. -/
theorem connect_success (lib : Library) (b : MinecraftBot) (address name uuid token : String)
    (timeout : Int) (sc : Sched)
    (hjoin : lib.JoinServer { Auth := { Name := name, UUID := uuid, AsTk := token } } address
      = none) :
    (Connect lib b address name uuid token).err = none ∧
    (Connect lib b address name uuid token).loopStarted = true ∧
    (Connect lib b address name uuid token).bot.isConnected = true ∧
    (Connect lib b address name uuid token).bot.healthUpdated = Chan.empty ∧
    (Connect lib b address name uuid token).bot.messageReceived = Chan.empty ∧
    (WaitForMessage (Connect lib b address name uuid token).bot timeout sc).1 = false ∧
    (WaitForHealth (Connect lib b address name uuid token).bot timeout sc).1 = false ∧
    GetLastMessage (Connect lib b address name uuid token).bot = GetLastMessage b ∧
    GetHealth (Connect lib b address name uuid token).bot = GetHealth b ∧
    GetLastMessage (Connect lib NewBot address name uuid token).bot = "" ∧
    GetHealth (Connect lib NewBot address name uuid token).bot = float32.zero := by
  have hm : (Connect lib b address name uuid token).bot.messageReceived = Chan.empty := by
    simp only [Connect, hjoin]; rfl
  have hh : (Connect lib b address name uuid token).bot.healthUpdated = Chan.empty := by
    simp only [Connect, hjoin]; rfl
  refine ⟨?_, ?_, ?_, hh, hm, ?_, ?_, ?_, ?_, ?_, ?_⟩
  · simp only [Connect, hjoin]
  · simp only [Connect, hjoin]
  · simp only [Connect, hjoin]
  · rw [WaitForMessage_of_not_full _ timeout sc (by rw [hm]; decide)]
  · rw [WaitForHealth_of_not_full _ timeout sc (by rw [hh]; decide)]
  · simp only [Connect, hjoin]; rfl
  · simp only [Connect, hjoin]; rfl
  · simp only [Connect, hjoin]; rfl
  · simp only [Connect, hjoin]; rfl

/-- Witness of `connect_success`: a second `Connect` on the bot that received
"hello" and 15.5. -/
theorem connect_success_witness :
    (Connect libOk botAfterEvents "localhost:25565" "k6" "" "").bot.isConnected = true ∧
    (Connect libOk botAfterEvents "localhost:25565" "k6" "" "").bot.messageReceived
      = Chan.empty ∧
    (WaitForMessage (Connect libOk botAfterEvents "localhost:25565" "k6" "" "").bot 1000
      ⟨0, false⟩).1 = false :=
  ⟨(connect_success libOk botAfterEvents "localhost:25565" "k6" "" "" 1000 ⟨0, false⟩
      rfl).2.2.1,
   (connect_success libOk botAfterEvents "localhost:25565" "k6" "" "" 1000 ⟨0, false⟩
      rfl).2.2.2.2.1,
   (connect_success libOk botAfterEvents "localhost:25565" "k6" "" "" 1000 ⟨0, false⟩
      rfl).2.2.2.2.2.1⟩

/-! ## C7: the packet loop -/

theorem dispatch_isConnected (lib : Library) (b : MinecraftBot) (e : Event) :
    (dispatch lib b e).bot.isConnected = (b.isConnected && !e.isDisconnect) := by
  cases e <;>
    simp [dispatch, onGameStart, SendMessage, onDisconnect, onHealthChange, onDeath,
      onPlayerMessage, Event.isDisconnect]

theorem dispatchAll_isConnected (lib : Library) (es : List Event) (b : MinecraftBot) :
    (dispatchAll lib b es).1.isConnected = (b.isConnected && !es.any Event.isDisconnect) := by
  induction es generalizing b with
  | nil => simp [dispatchAll]
  | cons e es ih =>
    simp only [dispatchAll, ih, dispatch_isConnected, List.any_cons]
    cases b.isConnected <;> cases e.isDisconnect <;> simp

theorem handleGamePackets_running (lib : Library) (pre : List StepOutcome) (b : MinecraftBot)
    (hb : b.isConnected = true) (hpre : ∀ x ∈ pre, x.halts = false) :
    (handleGamePackets lib b pre).performed = pre ∧
    (handleGamePackets lib b pre).returned = false ∧
    (handleGamePackets lib b pre).bot.isConnected = true := by
  induction pre generalizing b with
  | nil => simp [handleGamePackets, hb]
  | cons x xs ih =>
    have hx : x.halts = false := hpre x (List.mem_cons_self _ _)
    simp only [StepOutcome.halts, Bool.or_eq_false_iff] at hx
    have herr : x.err = none := by
      cases h : x.err with
      | none => rfl
      | some e => simp [h] at hx
    have hb2 : (dispatchAll lib b x.events).1.isConnected = true := by
      rw [dispatchAll_isConnected, hb, hx.2]; rfl
    have := ih (dispatchAll lib b x.events).1 hb2
      (fun y hy => hpre y (List.mem_cons_of_mem _ hy))
    simp only [handleGamePackets, hb, herr, if_true]
    exact ⟨by rw [this.1], this.2.1, this.2.2⟩

theorem handleGamePackets_halt (lib : Library) (o : StepOutcome) (post : List StepOutcome)
    (b : MinecraftBot) (hb : b.isConnected = true) (ho : o.halts = true) :
    (handleGamePackets lib b (o :: post)).performed = [o] ∧
    (handleGamePackets lib b (o :: post)).returned = true ∧
    (handleGamePackets lib b (o :: post)).bot.isConnected = false := by
  cases herr : o.err with
  | some e => simp [handleGamePackets, hb, herr]
  | none =>
    have hd : o.events.any Event.isDisconnect = true := by
      simpa [StepOutcome.halts, herr] using ho
    have hb2 : (dispatchAll lib b o.events).1.isConnected = false := by
      rw [dispatchAll_isConnected, hb, hd]; rfl
    simp only [handleGamePackets, hb, herr, if_true]
    cases post with
    | nil => simp [handleGamePackets, hb2]
    | cons y ys => simp [handleGamePackets, hb2]

theorem handleGamePackets_append (lib : Library) (pre : List StepOutcome)
    (rest : List StepOutcome) (b : MinecraftBot)
    (hb : b.isConnected = true) (hpre : ∀ x ∈ pre, x.halts = false) :
    (handleGamePackets lib b (pre ++ rest)).performed =
      pre ++ (handleGamePackets lib (handleGamePackets lib b pre).bot rest).performed ∧
    (handleGamePackets lib b (pre ++ rest)).returned =
      (handleGamePackets lib (handleGamePackets lib b pre).bot rest).returned ∧
    (handleGamePackets lib b (pre ++ rest)).bot =
      (handleGamePackets lib (handleGamePackets lib b pre).bot rest).bot := by
  induction pre generalizing b with
  | nil =>
    cases rest with
    | nil => simp [handleGamePackets, hb]
    | cons r rs => simp [handleGamePackets, hb]
  | cons x xs ih =>
    have hx : x.halts = false := hpre x (List.mem_cons_self _ _)
    simp only [StepOutcome.halts, Bool.or_eq_false_iff] at hx
    have herr : x.err = none := by
      cases h : x.err with
      | none => rfl
      | some e => simp [h] at hx
    have hb2 : (dispatchAll lib b x.events).1.isConnected = true := by
      rw [dispatchAll_isConnected, hb, hx.2]; rfl
    have := ih (dispatchAll lib b x.events).1 hb2
      (fun y hy => hpre y (List.mem_cons_of_mem _ hy))
    rw [List.cons_append]
    simp only [handleGamePackets, hb, herr, if_true]
    exact ⟨by rw [this.1, List.cons_append], this.2.1, this.2.2⟩

theorem HandleGameContract_of_errors (steps : List StepOutcome)
    (h : ∀ x ∈ steps, x.err ≠ none) : HandleGameContract steps :=
  fun x hx hnil => absurd hnil (h x hx)

/-- C7: started with the connected flag set (as `Connect` starts it), against
any finite run of `HandleGame` outcomes of the library whose first error is
returned by the call `o`, the calls `pre` before it having returned nil,
`handleGamePackets` makes exactly the calls up to and including `o`, each once
and in order, then returns with the connected flag false and makes no further
call (none of `post`); it returns at no earlier call: after the calls `pre`
the loop has made them all, the flag is set and it has not returned.  With the
`HandleGame` of go-mc, which returns only with an error, `pre` is empty and
the loop makes one call. -/
theorem packet_loop (lib : Library) (b : MinecraftBot) (pre post : List StepOutcome)
    (o : StepOutcome) (e : Err) (hb : b.isConnected = true)
    (hlib : HandleGameContract (pre ++ o :: post))
    (hpre : ∀ x ∈ pre, x.err = none) (ho : o.err = some e) :
    (handleGamePackets lib b (pre ++ o :: post)).performed = pre ++ [o] ∧
    (handleGamePackets lib b (pre ++ o :: post)).returned = true ∧
    (handleGamePackets lib b (pre ++ o :: post)).bot.isConnected = false ∧
    (handleGamePackets lib b pre).performed = pre ∧
    (handleGamePackets lib b pre).returned = false ∧
    (handleGamePackets lib b pre).bot.isConnected = true := by
  have hpre2 : ∀ x ∈ pre, x.halts = false := by
    intro x hx
    have h1 := hpre x hx
    have h2 := hlib x (List.mem_append_left _ hx) h1
    simp [StepOutcome.halts, h1, h2]
  have ho2 : o.halts = true := by simp [StepOutcome.halts, ho]
  have hrun := handleGamePackets_running lib pre b hb hpre2
  have happ := handleGamePackets_append lib pre (o :: post) b hb hpre2
  have hhalt := handleGamePackets_halt lib o post _ hrun.2.2 ho2
  refine ⟨?_, ?_, ?_, hrun⟩
  · rw [happ.1, hhalt.1]
  · rw [happ.2.1, hhalt.2.1]
  · rw [happ.2.2, hhalt.2.2]

/-- Witness of `packet_loop`: a `HandleGame` call that dispatches a chat
message, a disconnect and a health change and then returns an error, a second
call never made; and two calls that return nil before a third returns an
error. -/
theorem packet_loop_witness :
    (handleGamePackets libOk botConnected
      ([] ++ ⟨[Event.playerChatMessage ⟨"hello"⟩ true, Event.disconnect ⟨"bye"⟩,
                Event.healthChange health15_5 20 ⟨0⟩], some "EOF"⟩ ::
        [⟨[Event.death], some "EOF"⟩])).performed
      = [] ++ [⟨[Event.playerChatMessage ⟨"hello"⟩ true, Event.disconnect ⟨"bye"⟩,
                Event.healthChange health15_5 20 ⟨0⟩], some "EOF"⟩] ∧
    (handleGamePackets libOk botConnected
      ([] ++ ⟨[Event.playerChatMessage ⟨"hello"⟩ true, Event.disconnect ⟨"bye"⟩,
                Event.healthChange health15_5 20 ⟨0⟩], some "EOF"⟩ ::
        [⟨[Event.death], some "EOF"⟩])).returned = true ∧
    (handleGamePackets libOk botConnected
      ([⟨[Event.playerChatMessage ⟨"hello"⟩ true], none⟩,
        ⟨[Event.healthChange health15_5 20 ⟨0⟩], none⟩] ++
       ⟨[], some "EOF"⟩ :: [⟨[Event.death], none⟩])).performed
      = [⟨[Event.playerChatMessage ⟨"hello"⟩ true], none⟩,
         ⟨[Event.healthChange health15_5 20 ⟨0⟩], none⟩] ++ [⟨[], some "EOF"⟩] :=
  ⟨(packet_loop libOk botConnected []
      [⟨[Event.death], some "EOF"⟩]
      ⟨[Event.playerChatMessage ⟨"hello"⟩ true, Event.disconnect ⟨"bye"⟩,
        Event.healthChange health15_5 20 ⟨0⟩], some "EOF"⟩ "EOF" (by decide)
      (HandleGameContract_of_errors _ (by decide)) (by decide) rfl).1,
   (packet_loop libOk botConnected []
      [⟨[Event.death], some "EOF"⟩]
      ⟨[Event.playerChatMessage ⟨"hello"⟩ true, Event.disconnect ⟨"bye"⟩,
        Event.healthChange health15_5 20 ⟨0⟩], some "EOF"⟩ "EOF" (by decide)
      (HandleGameContract_of_errors _ (by decide)) (by decide) rfl).2.1,
   (packet_loop libOk botConnected
      [⟨[Event.playerChatMessage ⟨"hello"⟩ true], none⟩,
        ⟨[Event.healthChange health15_5 20 ⟨0⟩], none⟩]
      [⟨[Event.death], none⟩] ⟨[], some "EOF"⟩ "EOF" (by decide)
      (by intro x hx _; revert x; decide) (by decide) rfl).1⟩

/-! ## C9: death and respawn -/

theorem dispatch_spawned (lib : Library) (b : MinecraftBot) (e : Event) :
    (dispatch lib b e).spawned =
      if (Op.event e).isDeath then [{ sleep := 5 * Second }] else [] := by
  cases e <;>
    simp [dispatch, onGameStart, onDisconnect, onHealthChange, onDeath, onPlayerMessage,
      Op.isDeath]

theorem Sys.exec_count (lib : Library) (s : Sys) (op : Op) :
    (Sys.exec lib s op).respawns.length + (Sys.exec lib s op).sleeping.length =
      s.respawns.length + s.sleeping.length + (if op.isDeath then 1 else 0) := by
  cases op with
  | event e =>
    simp only [Sys.exec, Sys.spawn, dispatch_spawned]
    by_cases h : (Op.event e).isDeath = true <;> simp [h]
    omega
  | elapse d =>
    simp only [Sys.exec, Sys.elapse, Op.isDeath, List.length_append, List.length_map]
    have := List.length_eq_length_filter_add (l := s.sleeping)
      (fun w => decide (w ≤ s.now + (d : Int)))
    simp only [Bool.not_eq_true] at this
    simp
    omega
  | _ => simp [Sys.exec, Op.isDeath]

theorem Sys.run_count (lib : Library) (ops : List Op) (s : Sys) :
    (Sys.run lib s ops).respawns.length + (Sys.run lib s ops).sleeping.length =
      s.respawns.length + s.sleeping.length + ops.countP Op.isDeath := by
  induction ops generalizing s with
  | nil => simp [Sys.run]
  | cons op ops ih =>
    rw [Sys.run_cons, ih, Sys.exec_count, List.countP_cons]
    omega

theorem Sys.exec_bounded (lib : Library) (s : Sys) (op : Op) (h : s.Bounded) :
    (Sys.exec lib s op).Bounded := by
  cases op with
  | event e =>
    intro w hw
    simp only [Sys.exec, Sys.spawn, dispatch_spawned, List.mem_append, List.mem_map] at hw ⊢
    rcases hw with hw | ⟨g, hg, rfl⟩
    · exact h w hw
    · by_cases hd : (Op.event e).isDeath = true
      · simp [hd] at hg
        simp [hg]
      · simp [hd] at hg
  | elapse d =>
    intro w hw
    simp only [Sys.exec, Sys.elapse, List.mem_filter] at hw ⊢
    have := h w hw.1
    have hd : (0 : Int) ≤ (d : Int) := Int.ofNat_nonneg d
    omega
  | _ => simpa [Sys.exec, Sys.Bounded] using h

theorem Sys.run_bounded (lib : Library) (ops : List Op) (s : Sys) (h : s.Bounded) :
    (Sys.run lib s ops).Bounded := by
  induction ops generalizing s with
  | nil => exact h
  | cons op ops ih =>
    rw [Sys.run_cons]
    exact ih _ (Sys.exec_bounded lib s op h)

theorem Sys.elapse_all_due (s : Sys) (h : s.Bounded) :
    (s.elapse 5000000000).sleeping = [] := by
  simp only [Sys.elapse, List.filter_eq_nil_iff]
  intro w hw
  have := h w hw
  simp only [Second, Millisecond] at this
  simp only [Bool.not_eq_true', decide_eq_false_iff_not, not_not]
  push_cast
  omega

/-- C9: `onDeath` returns nil, leaves the bot as it was and starts exactly one
goroutine, which sleeps 5000 ms and then requests the respawn.  Nothing
cancels a started goroutine: along any run of operations the respawn requests
issued plus the goroutines still asleep grow by exactly one per death event,
and once 5 s have passed after the run none is asleep, so m death events have
yielded exactly m respawn requests (plus those pending before).  A disconnect
in the meantime changes nothing: after a death, a disconnect and 5 s the
request has been issued, at the instant of the death plus 5 s, with the
connected flag false; before the 5 s have passed it has not. -/
theorem death_respawn (lib : Library) (s : Sys) (ops : List Op) (reason : Message) (d : Nat)
    (hs : s.Bounded) :
    (onDeath s.bot).err = none ∧
    (onDeath s.bot).bot = s.bot ∧
    (onDeath s.bot).spawned = [{ sleep := 5000 * Millisecond }] ∧
    (Sys.run lib s ops).respawns.length + (Sys.run lib s ops).sleeping.length =
      s.respawns.length + s.sleeping.length + ops.countP Op.isDeath ∧
    (Sys.run lib s (ops ++ [Op.elapse 5000000000])).sleeping = [] ∧
    (Sys.run lib s (ops ++ [Op.elapse 5000000000])).respawns.length =
      s.respawns.length + s.sleeping.length + ops.countP Op.isDeath ∧
    (s.sleeping = [] →
      (Sys.run lib s [Op.event Event.death, Op.event (Event.disconnect reason),
        Op.elapse 5000000000]).respawns = s.respawns ++ [(s.now + 5 * Second, s.bot.player)] ∧
      (Sys.run lib s [Op.event Event.death, Op.event (Event.disconnect reason),
        Op.elapse 5000000000]).bot.isConnected = false ∧
      (d < 5000000000 →
        (Sys.run lib s [Op.event Event.death, Op.event (Event.disconnect reason),
          Op.elapse d]).respawns = s.respawns ∧
        (Sys.run lib s [Op.event Event.death, Op.event (Event.disconnect reason),
          Op.elapse d]).sleeping = [s.now + 5 * Second])) := by
  have hdue : (Sys.run lib s (ops ++ [Op.elapse 5000000000])).sleeping = [] := by
    rw [Sys.run_append]
    exact Sys.elapse_all_due _ (Sys.run_bounded lib ops s hs)
  have hcount := Sys.run_count lib (ops ++ [Op.elapse 5000000000]) s
  rw [hdue] at hcount
  refine ⟨rfl, rfl, rfl, Sys.run_count lib ops s, hdue, ?_, ?_⟩
  · simpa [Op.isDeath] using hcount
  · intro hempty
    refine ⟨?_, ?_, ?_⟩
    · simp [Sys.run, Sys.exec, Sys.spawn, Sys.elapse, dispatch, onDeath, onDisconnect, hempty,
        Second, Millisecond]
    · simp [Sys.run, Sys.exec, Sys.spawn, Sys.elapse, dispatch, onDeath, onDisconnect]
    · intro hd
      have hd2 : ¬ ((5000000000 : Int) ≤ (d : Int)) := by omega
      simp [Sys.run, Sys.exec, Sys.spawn, Sys.elapse, dispatch, onDeath, onDisconnect, hempty,
        Second, Millisecond, hd2]

/-- Witness of `death_respawn`: on the connected bot two deaths, a disconnect
between them and a chat message, then 5 s: two respawn requests, none
asleep. -/
theorem death_respawn_witness :
    (Sys.run libOk (Sys.init botConnected)
      ([Op.event Event.death, Op.event (Event.disconnect ⟨"bye"⟩), Op.elapse 1000000000,
        Op.event Event.death, Op.event (Event.playerChatMessage ⟨"hello"⟩ true)] ++
       [Op.elapse 5000000000])).sleeping = [] ∧
    (Sys.run libOk (Sys.init botConnected)
      ([Op.event Event.death, Op.event (Event.disconnect ⟨"bye"⟩), Op.elapse 1000000000,
        Op.event Event.death, Op.event (Event.playerChatMessage ⟨"hello"⟩ true)] ++
       [Op.elapse 5000000000])).respawns.length = 2 :=
  ⟨(death_respawn libOk (Sys.init botConnected)
      [Op.event Event.death, Op.event (Event.disconnect ⟨"bye"⟩), Op.elapse 1000000000,
        Op.event Event.death, Op.event (Event.playerChatMessage ⟨"hello"⟩ true)]
      ⟨"bye"⟩ 0 (by intro w hw; simp [Sys.init] at hw)).2.2.2.2.1,
   (death_respawn libOk (Sys.init botConnected)
      [Op.event Event.death, Op.event (Event.disconnect ⟨"bye"⟩), Op.elapse 1000000000,
        Op.event Event.death, Op.event (Event.playerChatMessage ⟨"hello"⟩ true)]
      ⟨"bye"⟩ 0 (by intro w hw; simp [Sys.init] at hw)).2.2.2.2.2.1.trans (by decide)⟩

/-! ## C10: lock discipline -/

/-- C10, the code at the failing input: the script of a `Connect` whose join
succeeds writes `isConnected` (line 70) without the mutex held, and the script
of `handleGamePackets`, for every bot and every run of `HandleGame` outcomes,
reads `isConnected` in the loop test (line 116) without the mutex held; the
scripts of `GetLastMessage`, `GetHealth`, `onPlayerMessage`, `onHealthChange`
and `onDisconnect`, and of a `Connect` whose join fails, keep every access of
a session field between lock and unlock. -/
theorem lock_discipline_broken (lib : Library) (b : MinecraftBot) (steps : List StepOutcome) :
    disciplined false (ConnectScript true) = false ∧
    disciplined false (handleGamePacketsScript lib b steps) = false ∧
    disciplined false (ConnectScript false) = true ∧
    disciplined false GetLastMessageScript = true ∧
    disciplined false GetHealthScript = true ∧
    disciplined false onPlayerMessageScript = true ∧
    disciplined false onHealthChangeScript = true ∧
    disciplined false onDisconnectScript = true := by
  refine ⟨by decide, ?_, by decide, by decide, by decide, by decide, by decide, by decide⟩
  cases steps <;> simp [handleGamePacketsScript, disciplined, Field.session]

end Minecraft
